import Mathlib

/-!
Shallow embedding of the curity maven GitHub action (`index.js`, two
generations of the same file: the current one under `src/` and the earlier
one shipped alongside the README).  The action checks that Maven is
installed, exchanges a client secret for an OAuth access token, and writes
a Maven `settings.xml` whose HTTP headers carry the token.
-/

set_option maxRecDepth 40000

namespace CurityMavenAction

/-! ## Generic string helpers (substring search and counting) -/

/-- True when `pat` occurs as a contiguous sublist of the second argument. -/
def hasSubAux (pat : List Char) : List Char → Bool
  | [] => pat.isEmpty
  | c :: rest => pat.isPrefixOf (c :: rest) || hasSubAux pat rest

/-- Number of positions at which `pat` occurs in the second argument
(occurrences counted at every starting position, possibly overlapping). -/
def countSubAux (pat : List Char) : List Char → Nat
  | [] => if pat.isEmpty then 1 else 0
  | c :: rest => (if pat.isPrefixOf (c :: rest) then 1 else 0) + countSubAux pat rest

/-- `containsSub s pat` is true when `pat` occurs as a substring of `s`. -/
def containsSub (s pat : String) : Bool :=
  hasSubAux pat.data s.data

/-- `countSub pat s` counts occurrences of `pat` in `s`. -/
def countSub (pat s : String) : Nat :=
  countSubAux pat.data s.data

/-- `hasPrefixStr pat s` is true when `s` starts with `pat`. -/
def hasPrefixStr (pat s : String) : Bool :=
  pat.data.isPrefixOf s.data

/-! ## The rendered settings documents

`settingsXml` is the template literal of the current `createMavenSettings`
(`src/src/index.js`, lines 84-121), split at its three interpolation holes
(`serverId`, `uploadServerId`, and `Bearer accessToken` twice).
`legacySettingsXml` is the template of the earlier generation of the file
(mirror-only, release-repository URL).  Both share the same XML header. -/

/-- XML declaration and `settings` open tag (common to both generations;
note the trailing space after `SETTINGS/1.2.0` inside `schemaLocation`,
present in the source). -/
def xmlHeader : String :=
  "<?xml version=\"1.0\" encoding=\"UTF-8\"?>\n<settings xmlns=\"http://maven.apache.org/SETTINGS/1.2.0\"\n          xmlns:xsi=\"http://www.w3.org/2001/XMLSchema-instance\"\n          xsi:schemaLocation=\"http://maven.apache.org/SETTINGS/1.2.0 \n                              http://maven.apache.org/xsd/settings-1.2.0.xsd\">\n"

/-- Literal text of a `server` entry up to its `id` hole. -/
def serverPre : String :=
  "        <server>\n        <id>"

/-- Literal text of a `server` entry between the `id` hole and the
`Bearer token` hole of its `value` element. -/
def serverMid : String :=
  "</id>\n        <configuration>\n            <httpHeaders>\n            <property>\n                <name>Authorization</name>\n                <value>"

/-- Literal text of a `server` entry after the `value` hole. -/
def serverSuf : String :=
  "</value>\n            </property>\n            </httpHeaders>\n        </configuration>\n        </server>\n"

/-- One `server` element of the current template, with its two holes filled
the way the JS template literal fills them. -/
def serverEntry (id accessToken : String) : String :=
  serverPre ++ id ++ serverMid ++ ("Bearer " ++ accessToken) ++ serverSuf

/-- The `mirrors` section of the current template (dev-repository URL). -/
def mirrorsSection (serverId : String) : String :=
  "    <mirrors>\n        <mirror>\n        <id>" ++ serverId ++
  "</id>\n        <name>Curity Maven Repository</name>\n        <url>https://hub.curityio.net/repository/curity-dev-repo-group/</url>\n        <mirrorOf>*</mirrorOf>\n        </mirror>\n    </mirrors>\n"

/-- The settings document of the current `createMavenSettings`
(`src/src/index.js` lines 84-121): a `servers` section with two entries
(`serverId` and `uploadServerId`, each carrying `Bearer accessToken` as an
`Authorization` header value) followed by one mirror on `serverId`
pointing at the dev-repository URL.  The token and ids are interpolated
verbatim, exactly as the JS template literal does. -/
def settingsXml (accessToken serverId uploadServerId : String) : String :=
  xmlHeader ++ "    <servers>\n" ++
  serverEntry serverId accessToken ++
  serverEntry uploadServerId accessToken ++
  "    </servers>\n" ++
  mirrorsSection serverId ++
  "</settings>"

/-- The settings document of the earlier generation of
`createMavenSettings` (mirror-only variant): one mirror on `serverId`
pointing at the release-repository URL, the `Authorization` header
embedded in the mirror's own `configuration`. -/
def legacySettingsXml (accessToken serverId : String) : String :=
  xmlHeader ++ "    <mirrors>\n        <mirror>\n        <id>" ++ serverId ++
  "</id>\n        <name>Curity Maven Repository</name>\n        <url>https://hub.curityio.net/repository/curity-release-repo/</url>\n        <mirrorOf>*</mirrorOf>\n        <configuration>\n            <httpHeaders>\n            <property>\n                <name>Authorization</name>\n                <value>" ++
  ("Bearer " ++ accessToken) ++
  "</value>\n            </property>\n            </httpHeaders>\n        </configuration>\n        </mirror>\n    </mirrors>\n</settings>"

/-- JS template-literal interpolation of a possibly-absent value: an
absent (`undefined`) argument prints as the literal text `undefined`. -/
def jsTemplate : Option String → String
  | some s => s
  | none => "undefined"

/-! ## TokenAcquirer (`getAccessToken`)

The network round trip is made explicit: an `HttpOutcome` is what the
single `axios.post` of the source resolves or rejects with.  `response`
is a delivered 2xx response (axios resolves only for 2xx by default);
`errorResponse` is a rejection carrying `error.response` (a delivered
non-2xx status with its body, modelled as the string `JSON.stringify`
produces from the parsed data); `errorRequest` is a rejection carrying
only `error.request` (no response received); `errorLocal` is any other
error.  `response.data.access_token` is modelled as an `Option String`
(`none` = field missing / data falsy path) and JS truthiness of the field
is emptiness of the string. -/

inductive HttpOutcome
  | response (status : Nat) (hasData : Bool) (accessToken : Option String)
  | errorResponse (status : Nat) (body : String)
  | errorRequest (message : String)
  | errorLocal (message : String)
  deriving DecidableEq

/-- Result of `getAccessToken`: the token, or the message of the thrown
`Error`. -/
inductive TokenResult
  | ok (token : String)
  | err (message : String)
  deriving DecidableEq

/-- The message of a `TokenResult.err`, empty for `ok`. -/
def TokenResult.errMessage : TokenResult → String
  | .ok _ => ""
  | .err m => m

/-- `getAccessToken` of `src/src/index.js` (lines 37-76), as a function
of the outcome of its single HTTP POST.  On a delivered 200 with a truthy
`data.access_token` it returns the token; otherwise the
`throw new Error('No access token in response')` inside the `try` block
is caught by the same `catch`, and since a plain `Error` has neither a
`response` nor a `request` property it is re-wrapped by the final branch
as `OAuth request error: ...`.  The four string parameters are those of
the source; they do not influence the classification. -/
def getAccessToken (tokenEndpoint clientId clientSecret scope : String) :
    HttpOutcome → TokenResult
  | .response status hasData accessToken =>
      match accessToken with
      | some token =>
          if status == 200 && hasData && !token.isEmpty then
            .ok token
          else
            .err ("OAuth request error: " ++ "No access token in response")
      | none => .err ("OAuth request error: " ++ "No access token in response")
  | .errorResponse status body =>
      .err ("OAuth request failed with status " ++ toString status ++ ": " ++ body)
  | .errorRequest message =>
      .err ("No response received from OAuth server: " ++ message)
  | .errorLocal message =>
      .err ("OAuth request error: " ++ message)

/-! ## Availability probe (`checkMavenAvailable`) -/

/-- Outcome of the underlying `exec('mvn', ['--version'])` call: it either
resolves with an exit code or throws. -/
inductive ExecOutcome
  | exited (exitCode : Int)
  | threw (message : String)
  deriving DecidableEq

/-- `checkMavenAvailable` of `src/src/index.js` (lines 10-32): returns
`true` when the version check resolves with exit code 0; a nonzero exit
code falls through to `return false`, and a thrown error is caught
(logged via `core.debug`) and likewise reaches `return false`. -/
def checkMavenAvailable : ExecOutcome → Bool
  | .exited exitCode => exitCode == 0
  | .threw _ => false

/-! ## JS string trimming -/

/-- The JS `String.prototype.trim` whitespace set (WhiteSpace and
LineTerminator code points). -/
def isJsWhitespace (c : Char) : Bool :=
  c = ' ' || c = '\t' || c = '\n' || c.toNat = 0x0b || c.toNat = 0x0c || c = '\r' ||
  c.toNat = 0xa0 || c.toNat = 0x1680 ||
  (0x2000 ≤ c.toNat && c.toNat ≤ 0x200a) ||
  c.toNat = 0x2028 || c.toNat = 0x2029 || c.toNat = 0x202f || c.toNat = 0x205f ||
  c.toNat = 0x3000 || c.toNat = 0xfeff

/-- JS `s.trim()`: drop leading and trailing JS whitespace. -/
def jsTrim (s : String) : String :=
  String.mk (((s.data.dropWhile isJsWhitespace).reverse.dropWhile isJsWhitespace).reverse)

/-! ## Filesystem model and `createMavenSettings`

The filesystem is an explicit value: a set of existing directories and a
map from paths to file contents.  `writeFileSync` replaces any previous
content at the path. -/

structure FileSystem where
  dirs : List String
  files : List (String × String)
  deriving DecidableEq

/-- Node's `path.dirname` for ordinary slash-separated paths: the text
before the last `/`, or `.` when there is no `/` (root stays `/`). -/
def dirname (p : String) : String :=
  match p.data.reverse.dropWhile (fun c => c ≠ '/') with
  | [] => "."
  | _ :: revRest => if revRest.isEmpty then "/" else String.mk revRest.reverse

/-- `createMavenSettings` of `src/src/index.js` (lines 81-133) over the
explicit filesystem: render `settingsXml` (an absent `uploadServerId`
interpolates as the literal `undefined`), create the parent directory of
`settingsPath` when it does not exist, write the document at
`settingsPath` replacing any previous content, and return `settingsPath`
itself (the source returns its argument unchanged). -/
def createMavenSettingsFS (accessToken serverId : String)
    (uploadServerId : Option String) (settingsPath : String)
    (fs : FileSystem) : FileSystem × String :=
  let content := settingsXml accessToken serverId (jsTemplate uploadServerId)
  let settingsDir := dirname settingsPath
  let dirsAfter := if settingsDir ∈ fs.dirs then fs.dirs else settingsDir :: fs.dirs
  let filesAfter := (settingsPath, content) :: fs.files.filter (fun e => e.1 != settingsPath)
  (⟨dirsAfter, filesAfter⟩, settingsPath)

/-- Content stored at a path. -/
def readFile (p : String) (fs : FileSystem) : Option String :=
  fs.files.lookup p

/-! ## The main action (`run`) -/

/-- The failure message of the Maven-availability gate in `run`. -/
def mavenUnavailableMessage : String :=
  "Maven is not available in the environment. Please use an action like actions/setup-java with Maven or setup-maven to install Maven first."

/-- Environment of one invocation of `run`: the result of the Maven
probe, the `client-secret` input as `core.getInput` hands it to `run`,
the runner's home directory, and the outcome the token endpoint would
produce if contacted. -/
structure ActionEnv where
  mavenAvailable : Bool
  clientSecret : String
  home : String
  tokenOutcome : HttpOutcome

/-- Terminal outcome of `run`: `core.setFailed`'s message, or success
with the `settings-file` and `access-token` outputs. -/
inductive RunResult
  | failed (message : String)
  | succeeded (settingsFile accessToken : String)
  deriving DecidableEq

/-- `run` of `src/src/index.js` (lines 138-181), paired with the number
of token-endpoint network calls issued.  The Maven gate fires first with
its own `core.setFailed` message; the empty-secret check throws inside
the `try`, so its message is wrapped with `Action failed: ` by the
`catch`; only past both checks is `getAccessToken` invoked (one network
call), after which `createMavenSettings` yields the settings path
`path.join(os.homedir(), '.m2', 'settings.xml')`. -/
def run (env : ActionEnv) : RunResult × Nat :=
  if !env.mavenAvailable then
    (.failed mavenUnavailableMessage, 0)
  else if (jsTrim env.clientSecret).isEmpty then
    (.failed ("Action failed: " ++ "client-secret cannot be empty"), 0)
  else
    match getAccessToken "https://login.curity.io/internal/oauth-token"
        "curity-cli-github" env.clientSecret "" env.tokenOutcome with
    | .ok accessToken =>
        (.succeeded (env.home ++ "/.m2/settings.xml") accessToken, 1)
    | .err message => (.failed ("Action failed: " ++ message), 1)

/-! ## XML character-data reading (spec-side)

Spec-side definition following the spec's words: element text content is
well-formed only when `<` does not occur raw and `&` occurs only as the
start of an entity reference; re-parsing unescapes the entities.  Used to
state the round-trip property of tokens through the rendered document. -/

/-- Read XML character data: fails on a raw `<` or on an `&` that does
not start one of the predefined entities `amp`, `lt`, `gt`; otherwise
returns the unescaped text. -/
def unescapeXmlChars : List Char → Option (List Char)
  | [] => some []
  | c :: rest =>
    if c = '<' then none
    else if c = '&' then
      match rest with
      | 'a' :: 'm' :: 'p' :: ';' :: rest2 => (unescapeXmlChars rest2).map (fun l => '&' :: l)
      | 'l' :: 't' :: ';' :: rest2 => (unescapeXmlChars rest2).map (fun l => '<' :: l)
      | 'g' :: 't' :: ';' :: rest2 => (unescapeXmlChars rest2).map (fun l => '>' :: l)
      | _ => none
    else (unescapeXmlChars rest).map (fun l => c :: l)

/-- Read XML character data from a string. -/
def unescapeXmlText (s : String) : Option String :=
  (unescapeXmlChars s.data).map String.mk

/-! ## Path resolution (spec-side)

Spec-side definitions following the spec's words, for comparison with the
path the renderer returns: "Return the resolved absolute path on
success." -/

/-- A POSIX path is absolute when it starts with `/`. -/
def specIsAbsolutePath (p : String) : Bool :=
  match p.data with
  | '/' :: _ => true
  | _ => false

/-- Resolution of a target path against a working directory: an absolute
path resolves to itself, a relative one is joined onto the working
directory. -/
def specResolvePath (cwd p : String) : String :=
  if specIsAbsolutePath p then p else cwd ++ "/" ++ p

/-! ## Helper lemmas -/

/-- String append is associative (helper for splitting rendered documents). -/
theorem sapp_assoc (a b c : String) : a ++ b ++ c = a ++ (b ++ c) := by
  apply congrArg String.mk
  show (a.data ++ b.data) ++ c.data = a.data ++ (b.data ++ c.data)
  exact List.append_assoc a.data b.data c.data

/-- Appending the empty string on the right is the identity. -/
theorem sapp_empty (a : String) : a ++ "" = a := by
  apply congrArg String.mk
  show a.data ++ [] = a.data
  exact List.append_nil a.data

/-- The data of an appended string is the appended data. -/
theorem sdata_append (a b : String) : (a ++ b).data = a.data ++ b.data := by
  cases a
  cases b
  rfl

/-- Rebuilding a string from its data gives the string back. -/
theorem smk_data (s : String) : String.mk s.data = s := by
  cases s
  rfl

/-- Reading XML character data that contains no `&` and no `<` succeeds
and returns the text unchanged. -/
theorem unescape_plain (l : List Char) (h : ∀ c ∈ l, c ≠ '&' ∧ c ≠ '<') :
    unescapeXmlChars l = some l := by
  induction l with
  | nil => rfl
  | cons c rest ih =>
    have hc := h c (List.mem_cons_self c rest)
    have hrest : ∀ x ∈ rest, x ≠ '&' ∧ x ≠ '<' :=
      fun x hx => h x (List.mem_cons_of_mem c hx)
    rw [unescapeXmlChars.eq_def]
    simp only []
    rw [if_neg hc.2, if_neg hc.1, ih hrest]
    rfl

/-! ## Claims -/

/-- C1 (counterexample): the renderer does not escape XML-special
characters.  For the token `&`, the rendered document contains the raw
text `<value>Bearer &</value>`, no `&amp;` entity appears anywhere in it,
and reading that element text as XML character data fails (a bare `&`
starts no entity), so re-parsing cannot yield back the token — refuting
the claim that the document is well-formed with the token recoverable. -/
theorem C1_counterexample :
    containsSub (settingsXml "&" "curity-repo" "curity-upload-repo")
      "<value>Bearer &</value>" = true ∧
    countSub "&amp;" (settingsXml "&" "curity-repo" "curity-upload-repo") = 0 ∧
    unescapeXmlText "Bearer &" = none :=
  ⟨by decide, by decide, by decide⟩

/-- C1 (amended): the renderer interpolates the token verbatim, with no
escaping; the value text of the rendered document is well-formed XML
character data that re-parses to the original token only when the token
itself contains no `&` and no `<`.  For such tokens the value text
`Bearer token` re-parses to itself, and the rendered document contains
that text verbatim. -/
theorem C1_amended_no_escaping (accessToken serverId uploadServerId : String)
    (h : ∀ c ∈ accessToken.data, c ≠ '&' ∧ c ≠ '<') :
    unescapeXmlText ("Bearer " ++ accessToken) = some ("Bearer " ++ accessToken) ∧
    (∃ p q, settingsXml accessToken serverId uploadServerId
        = p ++ ("Bearer " ++ accessToken) ++ q) := by
  constructor
  · have hlist : ∀ c ∈ ("Bearer " ++ accessToken).data, c ≠ '&' ∧ c ≠ '<' := by
      rw [sdata_append]
      intro c hcmem
      rcases List.mem_append.mp hcmem with hB | hT
      · have hBok : ∀ c ∈ ("Bearer " : String).data, c ≠ '&' ∧ c ≠ '<' := by decide
        exact hBok c hB
      · exact h c hT
    show (unescapeXmlChars ("Bearer " ++ accessToken).data).map String.mk
        = some ("Bearer " ++ accessToken)
    rw [unescape_plain _ hlist]
    show some (String.mk ("Bearer " ++ accessToken).data) = some ("Bearer " ++ accessToken)
    rw [smk_data]
  · refine ⟨xmlHeader ++ "    <servers>\n" ++ (serverPre ++ serverId ++ serverMid),
      serverSuf ++ serverEntry uploadServerId accessToken ++ "    </servers>\n" ++
        mirrorsSection serverId ++ "</settings>", ?_⟩
    simp only [settingsXml, serverEntry, sapp_assoc]

/-- C1 (witness): the amended statement at the concrete token `abc123`. -/
theorem C1_witness :
    unescapeXmlText ("Bearer " ++ "abc123") = some ("Bearer " ++ "abc123") ∧
    (∃ p q, settingsXml "abc123" "curity-repo" "curity-upload-repo"
        = p ++ ("Bearer " ++ "abc123") ++ q) :=
  C1_amended_no_escaping "abc123" "curity-repo" "curity-upload-repo" (by decide)

/-- C2 (counterexample): `createMavenSettings` does not select a variant
from `uploadServerId`.  With an absent `uploadServerId` the current
renderer still emits the dual-server document: one `servers` section, two
`server` entries (the second with the interpolated id `undefined`), and
the output differs from the single-mirror variant of the earlier
generation of the function. -/
theorem C2_counterexample :
    countSub "<servers>" (settingsXml "T" "curity-repo" (jsTemplate none)) = 1 ∧
    countSub "<server>" (settingsXml "T" "curity-repo" (jsTemplate none)) = 2 ∧
    containsSub (settingsXml "T" "curity-repo" (jsTemplate none))
      "<id>undefined</id>" = true ∧
    settingsXml "T" "curity-repo" (jsTemplate none) ≠ legacySettingsXml "T" "curity-repo" :=
  ⟨by decide, by decide, by decide, by decide⟩

/-- C2 (amended): variant selection is not argument-driven.  The current
renderer emits a `servers` section — the dual-server variant — for every
`uploadServerId`, present or absent; the single-mirror variant is the
earlier generation of the function, which renders no `servers` section
and exactly one mirror unconditionally. -/
theorem C2_amended_always_dual (accessToken serverId : String)
    (uploadServerId : Option String) :
    (∃ p q, settingsXml accessToken serverId (jsTemplate uploadServerId)
        = p ++ "<servers>" ++ q) ∧
    countSub "<servers>" (legacySettingsXml "T" "curity-repo") = 0 ∧
    countSub "<mirror>" (legacySettingsXml "T" "curity-repo") = 1 := by
  refine ⟨⟨xmlHeader ++ "    ",
    "\n" ++ serverEntry serverId accessToken ++
      serverEntry (jsTemplate uploadServerId) accessToken ++ "    </servers>\n" ++
      mirrorsSection serverId ++ "</settings>", ?_⟩, by decide, by decide⟩
  have hsplit : ("    <servers>\n" : String) = "    " ++ "<servers>" ++ "\n" := rfl
  simp only [settingsXml, hsplit, sapp_assoc]

/-- C3 (counterexample): a delivered 200 response without an
`access_token` is not distinguishable from the generic local-error
(`RequestError`) kind: the `throw new Error('No access token in
response')` is caught by the function's own `catch` and re-wrapped by its
final branch, producing exactly the output a local error with the same
message produces. -/
theorem C3_counterexample :
    getAccessToken "https://login.curity.io/internal/oauth-token" "curity-cli-github"
        "secret" "" (HttpOutcome.response 200 true none)
      = TokenResult.err ("OAuth request error: " ++ "No access token in response") ∧
    getAccessToken "https://login.curity.io/internal/oauth-token" "curity-cli-github"
        "secret" "" (HttpOutcome.response 200 true none)
      = getAccessToken "https://login.curity.io/internal/oauth-token" "curity-cli-github"
          "secret" "" (HttpOutcome.errorLocal "No access token in response") :=
  ⟨rfl, rfl⟩

/-- C3 (amended): an HTTP 200 response with a missing or empty
`access_token` always fails with the fixed message `OAuth request error:
No access token in response`.  That message is distinguishable from the
`Unreachable` kind (messages starting `No response received from OAuth
server: `) and from the `ServerRejected` kind (messages starting `OAuth
request failed with status `), but it carries the same `OAuth request
error: ` wrapper as generic local request errors. -/
theorem C3_amended_malformed_response
    (tokenEndpoint clientId clientSecret scope : String)
    (hasData : Bool) (accessToken : Option String)
    (h : accessToken = none ∨ accessToken = some "") :
    getAccessToken tokenEndpoint clientId clientSecret scope
        (HttpOutcome.response 200 hasData accessToken)
      = TokenResult.err ("OAuth request error: " ++ "No access token in response") ∧
    hasPrefixStr "No response received from OAuth server: "
      ("OAuth request error: " ++ "No access token in response") = false ∧
    hasPrefixStr "OAuth request failed with status "
      ("OAuth request error: " ++ "No access token in response") = false ∧
    hasPrefixStr "OAuth request error: "
      ("OAuth request error: " ++ "No access token in response") = true := by
  refine ⟨?_, by decide, by decide, by decide⟩
  rcases h with h | h
  · rw [h]
    rfl
  · rw [h]
    cases hasData <;> rfl

/-- C3 (witness): the amended statement at a concrete empty-token
response. -/
theorem C3_witness :
    getAccessToken "https://login.curity.io/internal/oauth-token" "curity-cli-github"
        "secret" "" (HttpOutcome.response 200 true (some ""))
      = TokenResult.err ("OAuth request error: " ++ "No access token in response") ∧
    hasPrefixStr "No response received from OAuth server: "
      ("OAuth request error: " ++ "No access token in response") = false ∧
    hasPrefixStr "OAuth request failed with status "
      ("OAuth request error: " ++ "No access token in response") = false ∧
    hasPrefixStr "OAuth request error: "
      ("OAuth request error: " ++ "No access token in response") = true :=
  C3_amended_malformed_response "https://login.curity.io/internal/oauth-token"
    "curity-cli-github" "secret" "" true (some "") (Or.inr rfl)

/-- C4: a client secret that is empty after JS trimming makes `run` fail
before the token request: zero network calls are issued, the outcome is a
failure, and when the Maven probe passed the failure is exactly the
input-validation message `Action failed: client-secret cannot be
empty`. -/
theorem C4_empty_secret_invalid_input (env : ActionEnv)
    (h : jsTrim env.clientSecret = "") :
    (run env).2 = 0 ∧
    (∃ m, (run env).1 = RunResult.failed m) ∧
    (env.mavenAvailable = true →
      run env
        = (RunResult.failed ("Action failed: " ++ "client-secret cannot be empty"), 0)) := by
  have hempty : ("" : String).isEmpty = true := by decide
  by_cases hm : env.mavenAvailable = true
  · have hrun : run env
        = (RunResult.failed ("Action failed: " ++ "client-secret cannot be empty"), 0) := by
      simp [run, hm, h, hempty]
    exact ⟨by rw [hrun], ⟨_, by rw [hrun]⟩, fun _ => hrun⟩
  · have hmf : env.mavenAvailable = false := by
      cases hb : env.mavenAvailable
      · rfl
      · exact absurd hb hm
    have hrun : run env = (RunResult.failed mavenUnavailableMessage, 0) := by
      simp [run, hmf]
    exact ⟨by rw [hrun], ⟨_, by rw [hrun]⟩, fun hc => absurd hc hm⟩

/-- C4 (witness): a whitespace-only secret in an environment whose Maven
probe passed. -/
theorem C4_witness :
    (run ⟨true, " \t ", "/home/runner", HttpOutcome.errorLocal "boom"⟩).2 = 0 ∧
    (∃ m, (run ⟨true, " \t ", "/home/runner", HttpOutcome.errorLocal "boom"⟩).1
        = RunResult.failed m) ∧
    ((⟨true, " \t ", "/home/runner", HttpOutcome.errorLocal "boom"⟩ : ActionEnv).mavenAvailable = true →
      run ⟨true, " \t ", "/home/runner", HttpOutcome.errorLocal "boom"⟩
        = (RunResult.failed ("Action failed: " ++ "client-secret cannot be empty"), 0)) :=
  C4_empty_secret_invalid_input
    ⟨true, " \t ", "/home/runner", HttpOutcome.errorLocal "boom"⟩ (by decide)

/-- C5 (counterexample): the claim's universal secret non-containment
fails.  For the client secret `401` and a 401 rejection with body
`{"error":"invalid_client"}`, the failure message contains the secret as
a substring (via the status text). -/
theorem C5_counterexample :
    getAccessToken "https://login.curity.io/internal/oauth-token" "curity-cli-github"
        "401" "" (HttpOutcome.errorResponse 401 "\x7b\"error\":\"invalid_client\"\x7d")
      = TokenResult.err
          "OAuth request failed with status 401: \x7b\"error\":\"invalid_client\"\x7d" ∧
    containsSub "OAuth request failed with status 401: \x7b\"error\":\"invalid_client\"\x7d"
      "401" = true :=
  ⟨rfl, by decide⟩

/-- C5 (amended): a delivered non-200 status with a body fails with a
message that contains the status and the literal body, and the message is
computed from the status and body alone — it does not depend on the
client secret, so a secret can occur in it only as an accidental
substring of that status/body text. -/
theorem C5_amended_server_rejected
    (tokenEndpoint clientId clientSecret scope : String)
    (status : Nat) (body : String) :
    getAccessToken tokenEndpoint clientId clientSecret scope
        (HttpOutcome.errorResponse status body)
      = TokenResult.err
          ("OAuth request failed with status " ++ toString status ++ ": " ++ body) ∧
    (∃ p q, "OAuth request failed with status " ++ toString status ++ ": " ++ body
        = p ++ toString status ++ q) ∧
    (∃ p q, "OAuth request failed with status " ++ toString status ++ ": " ++ body
        = p ++ body ++ q) ∧
    (∀ otherSecret : String,
      getAccessToken tokenEndpoint clientId otherSecret scope
          (HttpOutcome.errorResponse status body)
        = getAccessToken tokenEndpoint clientId clientSecret scope
            (HttpOutcome.errorResponse status body)) := by
  refine ⟨rfl,
    ⟨"OAuth request failed with status ", ": " ++ body, sapp_assoc _ _ _⟩,
    ⟨"OAuth request failed with status " ++ toString status ++ ": ", "",
      (sapp_empty _).symm⟩,
    fun _ => rfl⟩

/-- C6: rendering the dual-server document with ids `curity-repo` and
`curity-upload-repo` and token `T` yields exactly two `server` entries —
one per id, each carrying the header value `Bearer T` — and exactly one
`mirror` entry, whose id is `curity-repo` and whose URL is the
dev-repository URL; neither release-repository URL occurs anywhere. -/
theorem C6_dual_variant_round_trip :
    countSub "<server>" (settingsXml "T" "curity-repo" "curity-upload-repo") = 2 ∧
    containsSub (settingsXml "T" "curity-repo" "curity-upload-repo")
      (serverEntry "curity-repo" "T") = true ∧
    containsSub (settingsXml "T" "curity-repo" "curity-upload-repo")
      (serverEntry "curity-upload-repo" "T") = true ∧
    countSub "<value>Bearer T</value>" (settingsXml "T" "curity-repo" "curity-upload-repo") = 2 ∧
    countSub "<id>curity-repo</id>" (settingsXml "T" "curity-repo" "curity-upload-repo") = 2 ∧
    countSub "<id>curity-upload-repo</id>"
      (settingsXml "T" "curity-repo" "curity-upload-repo") = 1 ∧
    countSub "<mirror>" (settingsXml "T" "curity-repo" "curity-upload-repo") = 1 ∧
    containsSub (settingsXml "T" "curity-repo" "curity-upload-repo")
      "<mirror>\n        <id>curity-repo</id>" = true ∧
    containsSub (settingsXml "T" "curity-repo" "curity-upload-repo")
      "<url>https://hub.curityio.net/repository/curity-dev-repo-group/</url>" = true ∧
    containsSub (settingsXml "T" "curity-repo" "curity-upload-repo")
      "curity-release-repo" = false ∧
    containsSub (settingsXml "T" "curity-repo" "curity-upload-repo")
      "customer-release-repo" = false :=
  ⟨by decide, by decide, by decide, by decide, by decide, by decide, by decide,
   by decide, by decide, by decide, by decide⟩

/-- C7: when the Maven availability probe fails, `run` stops with the
specific tool-not-installed message and issues zero network calls. -/
theorem C7_tool_unavailable_short_circuits (env : ActionEnv)
    (h : env.mavenAvailable = false) :
    run env = (RunResult.failed mavenUnavailableMessage, 0) := by
  simp [run, h]

/-- C7 (witness): a concrete environment whose probe failed. -/
theorem C7_witness :
    run ⟨false, "secret", "/home/runner", HttpOutcome.errorLocal "never sent"⟩
      = (RunResult.failed mavenUnavailableMessage, 0) :=
  C7_tool_unavailable_short_circuits
    ⟨false, "secret", "/home/runner", HttpOutcome.errorLocal "never sent"⟩ rfl

/-- C8 (counterexample): `createMavenSettings` returns its `settingsPath`
argument unchanged; for the relative input `m2/settings.xml` the returned
path is still relative and therefore differs from its absolute resolution
against any working directory (here `/home/runner/work`). -/
theorem C8_counterexample :
    (createMavenSettingsFS "T" "curity-repo" (some "curity-upload-repo")
        "m2/settings.xml" ⟨[], []⟩).2 = "m2/settings.xml" ∧
    specIsAbsolutePath "m2/settings.xml" = false ∧
    specResolvePath "/home/runner/work" "m2/settings.xml" ≠ "m2/settings.xml" :=
  ⟨rfl, rfl, by decide⟩

/-- C8 (amended): on success the renderer returns its `settingsPath`
argument verbatim, performing no resolution; the path is absolute only
when the caller already passes an absolute path, as `run` does. -/
theorem C8_amended_returns_argument (accessToken serverId : String)
    (uploadServerId : Option String) (settingsPath : String) (fs : FileSystem) :
    (createMavenSettingsFS accessToken serverId uploadServerId settingsPath fs).2
      = settingsPath :=
  rfl

/-- C9: the availability probe is total over every outcome of the
version-check execution — including a thrown error — and returns `true`
exactly when the check exits with code 0. -/
theorem C9_probe_total (o : ExecOutcome) :
    checkMavenAvailable o = true ↔ o = ExecOutcome.exited 0 := by
  cases o with
  | exited c => simp [checkMavenAvailable]
  | threw m => simp [checkMavenAvailable]

/-- C10: the renderer is deterministic — for equal token, server ids and
target path, the content written is the same regardless of the prior
filesystem state, and equals the pure document `settingsXml` of the
arguments. -/
theorem C10_deterministic (accessToken serverId : String)
    (uploadServerId : Option String) (settingsPath : String)
    (fs1 fs2 : FileSystem) :
    readFile settingsPath
        (createMavenSettingsFS accessToken serverId uploadServerId settingsPath fs1).1
      = readFile settingsPath
          (createMavenSettingsFS accessToken serverId uploadServerId settingsPath fs2).1 ∧
    readFile settingsPath
        (createMavenSettingsFS accessToken serverId uploadServerId settingsPath fs1).1
      = some (settingsXml accessToken serverId (jsTemplate uploadServerId)) := by
  have hread : ∀ fs : FileSystem,
      readFile settingsPath
          (createMavenSettingsFS accessToken serverId uploadServerId settingsPath fs).1
        = some (settingsXml accessToken serverId (jsTemplate uploadServerId)) := by
    intro fs
    simp [readFile, createMavenSettingsFS, List.lookup]
  exact ⟨(hread fs1).trans (hread fs2).symm, hread fs1⟩

end CurityMavenAction
